import Mathlib

/-!
Shallow embedding of the Pulumi automation-API Stack orchestrator
(`sdk/nodejs/x/automation/stack.ts`) and of the deploytest language runtime
(`pkg/resource/deploy/deploytest/languageruntime.go`), with theorems settling
the frozen claims about them.

JavaScript objects parsed from JSON are embedded as association lists
`List (String × JSONValue)`; property access `o[k]` becomes `jsLookup o k`
(returning `none` for a missing key, the embedding of `undefined`).
Promise-returning operations whose outcome depends on external collaborators
(the Workspace, the command execution endpoint) are embedded as pure functions
taking those collaborators' responses as explicit arguments; a thrown error
becomes `Except.error`.
-/

/-- A JSON value, as produced by `JSON.parse` on the CLI's output. -/
inductive JSONValue where
  | null : JSONValue
  | bool : Bool → JSONValue
  | num : Int → JSONValue
  | str : String → JSONValue
  | arr : List JSONValue → JSONValue
  | obj : List (String × JSONValue) → JSONValue

/-- JavaScript property lookup on an object embedded as an association list:
`o[k]` is the first binding of `k`, `none` when the key is absent
(JavaScript `undefined`). -/
def jsLookup {α : Type} : List (String × α) → String → Option α
  | [], _ => none
  | kv :: rest, k => if kv.1 == k then some kv.2 else jsLookup rest k

/-- Modelled from the spec: a `ConfigValue` is a value that may itself be
marked secret (the defining module `config.ts` is not part of this excerpt;
only the shape matters here, as a field type of `UpdateSummary`). -/
structure ConfigValue where
  value : String
  secret : Option Bool := none

/-- `OpMap`: per-operation-type change counts (`stack.ts` lines 322-326).
The TypeScript keys `create-replacement` and `delete-replaced` contain
hyphens and are rendered in camel case. -/
structure OpMap where
  same : Nat
  create : Nat
  update : Nat
  delete : Nat
  replace : Nat
  createReplacement : Nat
  deleteReplaced : Nat

/-- `UpdateSummary` (`stack.ts` lines 302-316). The string-literal union
types `UpdateKind` and `UpdateResult` are strings at runtime and are
embedded as `String`. -/
structure UpdateSummary where
  kind : String
  startTime : Int
  message : String
  environment : List (String × String)
  config : List (String × ConfigValue)
  result : String
  endTime : Int
  version : Int
  Deployment : Option String := none
  resourceChanges : Option OpMap := none

/-- `CommandResult` from one execution-endpoint invocation: captured
stdout and stderr. -/
structure CommandResult where
  stdout : String
  stderr : String

/-- `OutputValue` (`stack.ts` lines 295-298): a stack output value together
with its secret flag. -/
structure OutputValue where
  value : JSONValue
  secret : Bool

/-- Modelled from the spec: a registered inline program (`PulumiFn` from
`workspace.ts`, not part of this excerpt). Only its presence or absence is
ever inspected by the Stack orchestrator, so it is embedded as `Unit`. -/
def PulumiFn : Type := Unit

/-- The execution-kind tag for the local path (`execKind.local`). -/
def execKindLocal : String := "auto.local"

/-- The execution-kind tag for the inline path (`execKind.inline`). -/
def execKindInline : String := "auto.inline"

/-- The reserved sentinel string the masked output view uses for a redacted
value (`const secretSentinal = "[secret]"`, `stack.ts` line 254; the source
spells it `Sentinal`). -/
def secretSentinal : String := "[secret]"

/-- The JavaScript comparison `maskedOuts[key] === secretSentinal`:
true exactly when the lookup produced a string equal to the sentinel
(strict equality of `undefined` or a non-string against a string is false). -/
def isSecretMask : Option JSONValue → Bool
  | some (JSONValue.str s) => s == secretSentinal
  | _ => false

/-- `UpOptions` (`stack.ts` lines 355-364). Every field is optional; `none`
is the embedding of the field being `undefined`. The `onOutput` callback is
carried only for shape fidelity and never inspected during argument
building. -/
structure UpOptions where
  parallel : Option Int := none
  message : Option String := none
  expectNoChanges : Option Bool := none
  replace : Option (List String) := none
  target : Option (List String) := none
  targetDependents : Option Bool := none
  onOutput : Option Unit := none
  program : Option PulumiFn := none

/-- `PreviewOptions` (`stack.ts` lines 366-374). -/
structure PreviewOptions where
  parallel : Option Int := none
  message : Option String := none
  expectNoChanges : Option Bool := none
  replace : Option (List String) := none
  target : Option (List String) := none
  targetDependents : Option Bool := none
  program : Option PulumiFn := none

/-- `RefreshOptions` (`stack.ts` lines 376-382). -/
structure RefreshOptions where
  parallel : Option Int := none
  message : Option String := none
  expectNoChanges : Option Bool := none
  target : Option (List String) := none
  onOutput : Option Unit := none

/-- `DestroyOptions` (`stack.ts` lines 384-390). -/
structure DestroyOptions where
  parallel : Option Int := none
  message : Option String := none
  target : Option (List String) := none
  targetDependents : Option Bool := none
  onOutput : Option Unit := none

/-- `if (opts.message) args.push("--message", opts.message)`: a present and
non-empty message (the empty string is falsy in JavaScript) contributes the
flag and its value. -/
def messageArgs : Option String → List String
  | some s => if s != "" then ["--message", s] else []
  | none => []

/-- `if (opts.expectNoChanges) args.push("--expect-no-changes")`. -/
def expectNoChangesArgs (b : Option Bool) : List String :=
  match b with
  | some true => ["--expect-no-changes"]
  | _ => []

/-- The body of the `for (const urn of list) args.push(flag, urn)` loop used
for the list-valued `replace` and `target` options: one repeated flag per
element, in input order. -/
def urnLoop (flag : String) : List String → List String
  | [] => []
  | u :: rest => flag :: u :: urnLoop flag rest

/-- `if (opts.replace) for (...)` / `if (opts.target) for (...)`: an absent
list contributes nothing; a present list (a defined array is truthy even
when empty) contributes the loop's flags. -/
def urnListArgs (flag : String) : Option (List String) → List String
  | some urns => urnLoop flag urns
  | none => []

/-- `if (opts.targetDependents) args.push("--target-dependents")`. -/
def targetDependentsArgs (b : Option Bool) : List String :=
  match b with
  | some true => ["--target-dependents"]
  | _ => []

/-- `if (opts.parallel) args.push("--parallel", opts.parallel.toString())`:
a present and non-zero parallelism (the number 0 is falsy in JavaScript)
contributes the flag and its decimal rendering. -/
def parallelArgs : Option Int → List String
  | some n => if n != 0 then ["--parallel", toString n] else []
  | none => []

namespace Stack

/-- `Stack.outputs()` reconciliation (`stack.ts` lines 246-261): iterate the
entries of the plaintext view and pair each value with a secret flag derived
from the masked view. -/
def outputs (maskedOuts plaintextOuts : List (String × JSONValue)) :
    List (String × OutputValue) :=
  plaintextOuts.map fun kv =>
    (kv.1, { value := kv.2, secret := isSecretMask (jsLookup maskedOuts kv.1) })

/-- The optional-flag block of `Stack.up` (`stack.ts` lines 67-93): flags
accumulate in source order: message, expectNoChanges, replace, target,
targetDependents, parallel. A `none` options object (`opts` omitted)
contributes nothing. -/
def upOptsArgs : Option UpOptions → List String
  | none => []
  | some o =>
      messageArgs o.message ++ expectNoChangesArgs o.expectNoChanges ++
        urnListArgs "--replace" o.replace ++ urnListArgs "--target" o.target ++
        targetDependentsArgs o.targetDependents ++ parallelArgs o.parallel

/-- The optional-flag block of `Stack.preview` (`stack.ts` lines 119-145),
identical in shape to the one in `up`. -/
def previewOptsArgs : Option PreviewOptions → List String
  | none => []
  | some o =>
      messageArgs o.message ++ expectNoChangesArgs o.expectNoChanges ++
        urnListArgs "--replace" o.replace ++ urnListArgs "--target" o.target ++
        targetDependentsArgs o.targetDependents ++ parallelArgs o.parallel

/-- The optional-flag block of `Stack.refresh` (`stack.ts` lines 167-182):
message, expectNoChanges, target, parallel. -/
def refreshOptsArgs : Option RefreshOptions → List String
  | none => []
  | some o =>
      messageArgs o.message ++ expectNoChangesArgs o.expectNoChanges ++
        urnListArgs "--target" o.target ++ parallelArgs o.parallel

/-- The optional-flag block of `Stack.destroy` (`stack.ts` lines 197-212):
message, target, targetDependents, parallel. -/
def destroyOptsArgs : Option DestroyOptions → List String
  | none => []
  | some o =>
      messageArgs o.message ++ urnListArgs "--target" o.target ++
        targetDependentsArgs o.targetDependents ++ parallelArgs o.parallel

/-- Program resolution in `up` and `preview`: `program` starts as the
Workspace's registered program (`this.workspace.getProgram()`) and is
overridden by `opts.program` when that is present (`stack.ts` lines 64,
68-70). -/
def resolveProgram (wsProgram optsProgram : Option PulumiFn) : Option PulumiFn :=
  match optsProgram with
  | some p => some p
  | none => wsProgram

/-- The argument-building and execution-kind phase of `Stack.up`
(`stack.ts` lines 61-101): base args `["up", "--yes", "--skip-preview"]`,
then the optional flags, then the program check. The first component is the
final value of the mutable `kind` variable; the second is either the thrown
`NYI` error (before any process is spawned) or the completed argument list
with `--exec-kind` appended. -/
def upPrepare (wsProgram : Option PulumiFn) (opts : Option UpOptions) :
    String × Except String (List String) :=
  let args := ["up", "--yes", "--skip-preview"] ++ upOptsArgs opts
  match resolveProgram wsProgram (opts.bind fun o => o.program) with
  | some _ => (execKindInline, Except.error "NYI: inline programs")
  | none => (execKindLocal, Except.ok (args ++ ["--exec-kind", execKindLocal]))

/-- The argument-building and execution-kind phase of `Stack.preview`
(`stack.ts` lines 112-153), identical in shape to the one in `up`. -/
def previewPrepare (wsProgram : Option PulumiFn) (opts : Option PreviewOptions) :
    String × Except String (List String) :=
  let args := ["preview"] ++ previewOptsArgs opts
  match resolveProgram wsProgram (opts.bind fun o => o.program) with
  | some _ => (execKindInline, Except.error "NYI: inline programs")
  | none => (execKindLocal, Except.ok (args ++ ["--exec-kind", execKindLocal]))

/-- The argument list built by `Stack.refresh` (`stack.ts` lines 163-182):
base args then the optional flags; no program check and no exec-kind tag. -/
def refreshArgs (opts : Option RefreshOptions) : List String :=
  ["refresh", "--yes", "--skip-preview"] ++ refreshOptsArgs opts

/-- The argument list built by `Stack.destroy` (`stack.ts` lines 193-212). -/
def destroyArgs (opts : Option DestroyOptions) : List String :=
  ["destroy", "--yes", "--skip-preview"] ++ destroyOptsArgs opts

/-- `Stack.history()` (`stack.ts` lines 262-266): the parsed sequence of
`UpdateSummary` records is returned verbatim, with no re-sorting. -/
def history (parsed : List UpdateSummary) : List UpdateSummary :=
  parsed

/-- `Stack.info()` (`stack.ts` lines 267-273): `undefined` when the history
value is null (`!history`) or empty, otherwise `history[0]`. The argument is
the history query's outcome; `none` embeds a null parse. -/
def info : Option (List UpdateSummary) → Option UpdateSummary
  | none => none
  | some [] => none
  | some (first :: _) => some first

end Stack

/-- `UpResult` (`stack.ts` lines 330-335). The TypeScript declaration types
`summary` as a present `UpdateSummary`, but the value stored at runtime is
`info()`'s result passed through a compile-time-only non-null assertion
(`status[0]!`, line 107), so the runtime field is in fact optional and is
embedded as such. -/
structure UpResult where
  stdout : String
  stderr : String
  outputs : List (String × OutputValue)
  summary : Option UpdateSummary

/-- `PreviewResult` (`stack.ts` lines 337-341); `summary` as in `UpResult`. -/
structure PreviewResult where
  stdout : String
  stderr : String
  summary : Option UpdateSummary

/-- `RefreshResult` (`stack.ts` lines 343-347); `summary` as in `UpResult`. -/
structure RefreshResult where
  stdout : String
  stderr : String
  summary : Option UpdateSummary

/-- `DestroyResult` (`stack.ts` lines 349-353); `summary` as in `UpResult`. -/
structure DestroyResult where
  stdout : String
  stderr : String
  summary : Option UpdateSummary

namespace Stack

/-- `Stack.up` end to end (`stack.ts` lines 61-111): if the prepare phase
threw the inline-program error, that error is the outcome and none of the
collaborator responses are consulted; otherwise the result is assembled from
the command result, the history query (for `summary`, via `info()`) and the
output reconciliation. The collaborators' responses are explicit arguments:
`cmd` the execution endpoint's result, `parsedHistory` the history query's
parse, `maskedOuts`/`plaintextOuts` the two output views. -/
def up (wsProgram : Option PulumiFn) (opts : Option UpOptions)
    (cmd : CommandResult) (parsedHistory : Option (List UpdateSummary))
    (maskedOuts plaintextOuts : List (String × JSONValue)) :
    Except String UpResult :=
  match (upPrepare wsProgram opts).2 with
  | Except.error e => Except.error e
  | Except.ok _ =>
      Except.ok
        { stdout := cmd.stdout
          stderr := cmd.stderr
          summary := info parsedHistory
          outputs := outputs maskedOuts plaintextOuts }

/-- `Stack.preview` end to end (`stack.ts` lines 112-162). -/
def preview (wsProgram : Option PulumiFn) (opts : Option PreviewOptions)
    (cmd : CommandResult) (parsedHistory : Option (List UpdateSummary)) :
    Except String PreviewResult :=
  match (previewPrepare wsProgram opts).2 with
  | Except.error e => Except.error e
  | Except.ok _ =>
      Except.ok
        { stdout := cmd.stdout
          stderr := cmd.stderr
          summary := info parsedHistory }

/-- `Stack.refresh` end to end (`stack.ts` lines 163-192): no failure path
of its own; the result pairs the command result with `info()`'s summary. -/
def refresh (opts : Option RefreshOptions) (cmd : CommandResult)
    (parsedHistory : Option (List UpdateSummary)) : RefreshResult :=
  { stdout := cmd.stdout
    stderr := cmd.stderr
    summary := info parsedHistory }

/-- `Stack.destroy` end to end (`stack.ts` lines 193-222). -/
def destroy (opts : Option DestroyOptions) (cmd : CommandResult)
    (parsedHistory : Option (List UpdateSummary)) : DestroyResult :=
  { stdout := cmd.stdout
    stderr := cmd.stderr
    summary := info parsedHistory }

end Stack

/-- A construction failure of a `Stack`: either the `unexpected Stack
creation mode` error thrown by the constructor's default branch
(`stack.ts` line 58), or a propagated Workspace operation error. -/
inductive InitError (E : Type) where
  | unexpectedMode (mode : String) : InitError E
  | op (e : E) : InitError E

namespace Stack

/-- The `Stack` constructor's mode dispatch together with awaiting `ready`
(`stack.ts` lines 40-59). `createStack` and `selectStack` are the outcomes
of the Workspace's two lifecycle primitives for this stack name; the mode is
a string, as at TypeScript runtime, so the default branch is reachable. For
`upsert`, `createStack(name).catch(() => selectStack(name))` retries any
create failure as a select and the select outcome is final. -/
def init {E : Type} (mode : String) (createStack selectStack : Except E Unit) :
    Except (InitError E) Unit :=
  if mode = "create" then createStack.mapError InitError.op
  else if mode = "select" then selectStack.mapError InitError.op
  else if mode = "upsert" then
    match createStack with
    | Except.ok _ => Except.ok ()
    | Except.error _ => selectStack.mapError InitError.op
  else Except.error (InitError.unexpectedMode mode)

end Stack

/-- `FullyQualifiedStackName` (`stack.ts` lines 291-293). -/
def FullyQualifiedStackName (org project stack : String) : String :=
  org ++ "/" ++ project ++ "/" ++ stack

/-- A Go error produced by `errors.Wrapf(err, context)`: the wrapping
context message together with the wrapped cause. -/
structure WrappedError where
  context : String
  cause : String

/-- `languageRuntime.Run` (`languageruntime.go` lines 66-85), embedded over
the outcomes of its two effectful steps: `dial` is the outcome of
`grpc.Dial(info.MonitorAddress, ...)`, and `programOutcome` is the error
value the caller-supplied program returns against the monitor client
(`none` for a nil error, `some msg` for an error whose `Error()` is `msg`;
it is only consulted when the dial succeeded). The result is the Go pair
`(string, error)`. -/
def languageRuntimeRun (dial : Except String Unit)
    (programOutcome : Option String) : String × Option WrappedError :=
  match dial with
  | Except.error e =>
      ("", some { context := "could not connect to resource monitor", cause := e })
  | Except.ok _ =>
      match programOutcome with
      | some msg => (msg, none)
      | none => ("", none)

theorem jsLookup_outputs (m p : List (String × JSONValue)) (k : String) :
    jsLookup (Stack.outputs m p) k =
      (jsLookup p k).map
        (fun v => OutputValue.mk v (isSecretMask (jsLookup m k))) := by
  induction p with
  | nil => rfl
  | cons kv rest ih =>
    simp only [Stack.outputs, List.map_cons, jsLookup] at *
    by_cases h : kv.1 == k
    · have hk : kv.1 = k := eq_of_beq h
      simp [h, hk]
    · simp [h, ih]

theorem keys_outputs (m p : List (String × JSONValue)) :
    (Stack.outputs m p).map Prod.fst = p.map Prod.fst := by
  induction p with
  | nil => rfl
  | cons kv rest ih =>
    simp only [Stack.outputs, List.map_cons] at *
    simp [ih]

theorem isSecretMask_iff (o : Option JSONValue) :
    isSecretMask o = true ↔ o = some (JSONValue.str "[secret]") := by
  cases o with
  | none => simp [isSecretMask]
  | some v =>
    cases v with
    | str s => simp [isSecretMask, secretSentinal]
    | null => simp [isSecretMask]
    | bool b => simp [isSecretMask]
    | num n => simp [isSecretMask]
    | arr a => simp [isSecretMask]
    | obj o => simp [isSecretMask]

/-- Claim C1: the `OutputMap` returned by `outputs()` has exactly the keys of
the plaintext view; each key maps to the plaintext value, with the secret
flag true if and only if the masked view's value at that key is the literal
sentinel string `[secret]`; keys present only in the masked view do not
appear. -/
theorem c1_outputs_reconciliation :
    ∀ (m p : List (String × JSONValue)) (k : String),
      (Stack.outputs m p).map Prod.fst = p.map Prod.fst ∧
      jsLookup (Stack.outputs m p) k =
        (jsLookup p k).map
          (fun v => OutputValue.mk v (isSecretMask (jsLookup m k))) ∧
      (isSecretMask (jsLookup m k) = true ↔
        jsLookup m k = some (JSONValue.str "[secret]")) := by
  intro m p k
  exact ⟨keys_outputs m p, jsLookup_outputs m p k, isSecretMask_iff _⟩

/-- Claim C2: construction with mode `create` propagates create's outcome and
with mode `select` propagates select's outcome; with mode `upsert` a create
success is final and a create failure of any kind falls back to select, whose
outcome (including failure) is surfaced; any other mode string fails with the
unexpected-mode error. -/
theorem c2_stack_init_modes :
    ∀ (E : Type) (c s : Except E Unit) (e : E) (mode : String),
      Stack.init "create" c s = c.mapError InitError.op ∧
      Stack.init "select" c s = s.mapError InitError.op ∧
      Stack.init "upsert" (Except.ok ()) s = Except.ok () ∧
      Stack.init "upsert" (Except.error e) s = s.mapError InitError.op ∧
      (mode ≠ "create" → mode ≠ "select" → mode ≠ "upsert" →
        Stack.init mode c s = Except.error (InitError.unexpectedMode mode)) := by
  intro E c s e mode
  refine ⟨rfl, rfl, rfl, rfl, ?_⟩
  intro h1 h2 h3
  simp [Stack.init, h1, h2, h3]

/-- Witness for C2: a concrete unrecognized mode string fails construction
with the unexpected-mode error. -/
theorem c2_stack_init_modes_witness :
    @Stack.init Unit "flurb" (Except.ok ()) (Except.ok ()) =
      Except.error (InitError.unexpectedMode "flurb") :=
  (c2_stack_init_modes Unit (Except.ok ()) (Except.ok ()) () "flurb").2.2.2.2
    (by decide) (by decide) (by decide)

/-- Claim C3: for `up` and `preview`, a caller-supplied inline program makes
the execution-kind tag `auto.inline` and the operation fail with the
`NYI: inline programs` error; the outcome is this error for every possible
endpoint response, so no process is spawned. -/
theorem c3_inline_program_nyi :
    ∀ (wsp : Option PulumiFn) (p : PulumiFn) (uo : UpOptions)
      (po : PreviewOptions) (cmd : CommandResult)
      (hist : Option (List UpdateSummary)) (m pt : List (String × JSONValue)),
      Stack.upPrepare wsp (some { uo with program := some p }) =
        (execKindInline, Except.error "NYI: inline programs") ∧
      Stack.up wsp (some { uo with program := some p }) cmd hist m pt =
        Except.error "NYI: inline programs" ∧
      Stack.previewPrepare wsp (some { po with program := some p }) =
        (execKindInline, Except.error "NYI: inline programs") ∧
      Stack.preview wsp (some { po with program := some p }) cmd hist =
        Except.error "NYI: inline programs" := by
  intro wsp p uo po cmd hist m pt
  exact ⟨rfl, rfl, rfl, rfl⟩

/-- Claim C4: `history()` returns the parsed records verbatim, in the
engine's order; `info()` is the first element of that sequence when it is
non-empty and the explicit absence value when it is empty (or null). -/
theorem c4_history_info :
    ∀ (l : List UpdateSummary) (s : UpdateSummary) (rest : List UpdateSummary),
      Stack.history l = l ∧
      Stack.info (some []) = none ∧
      Stack.info none = none ∧
      Stack.info (some (s :: rest)) = some s ∧
      Stack.info (some l) = l.head? := by
  intro l s rest
  refine ⟨rfl, rfl, rfl, rfl, ?_⟩
  cases l <;> rfl

/-- Claim C5: each operation translates its present option fields into flags
in the fixed order message, expectNoChanges, replace, target,
targetDependents, parallel (restricted to the fields the operation's options
carry); absent fields contribute nothing; the list-valued options contribute
one repeated flag per element preserving input order; and with only
`target = [urn:a, urn:b]` the optional flags are exactly
`--target urn:a --target urn:b`. -/
theorem c5_option_flag_translation :
    ∀ (uo : UpOptions) (po : PreviewOptions) (ro : RefreshOptions)
      (dopts : DestroyOptions) (flag u : String) (rest : List String),
      Stack.upOptsArgs (some uo) =
        messageArgs uo.message ++ expectNoChangesArgs uo.expectNoChanges ++
          urnListArgs "--replace" uo.replace ++ urnListArgs "--target" uo.target ++
          targetDependentsArgs uo.targetDependents ++ parallelArgs uo.parallel ∧
      Stack.previewOptsArgs (some po) =
        messageArgs po.message ++ expectNoChangesArgs po.expectNoChanges ++
          urnListArgs "--replace" po.replace ++ urnListArgs "--target" po.target ++
          targetDependentsArgs po.targetDependents ++ parallelArgs po.parallel ∧
      Stack.refreshOptsArgs (some ro) =
        messageArgs ro.message ++ expectNoChangesArgs ro.expectNoChanges ++
          urnListArgs "--target" ro.target ++ parallelArgs ro.parallel ∧
      Stack.destroyOptsArgs (some dopts) =
        messageArgs dopts.message ++ urnListArgs "--target" dopts.target ++
          targetDependentsArgs dopts.targetDependents ++ parallelArgs dopts.parallel ∧
      messageArgs none = [] ∧
      expectNoChangesArgs none = [] ∧
      urnListArgs flag none = [] ∧
      targetDependentsArgs none = [] ∧
      parallelArgs none = [] ∧
      urnListArgs flag (some (u :: rest)) = [flag, u] ++ urnListArgs flag (some rest) ∧
      urnListArgs flag (some []) = [] ∧
      Stack.upOptsArgs (some { target := some ["urn:a", "urn:b"] }) =
        ["--target", "urn:a", "--target", "urn:b"] := by
  intro uo po ro dopts flag u rest
  exact ⟨rfl, rfl, rfl, rfl, rfl, rfl, rfl, rfl, rfl, rfl, rfl, rfl⟩

/-- Claim C6: the built argument lists are the fixed base list of each
operation followed by the optional flags, and for `up` and `preview` on the
local path (no program anywhere) `--exec-kind auto.local` is appended after
the option flags. -/
theorem c6_base_args_and_exec_kind :
    ∀ (uo : UpOptions) (po : PreviewOptions) (ro : Option RefreshOptions)
      (dopts : Option DestroyOptions),
      Stack.upPrepare none (some { uo with program := none }) =
        (execKindLocal,
          Except.ok (["up", "--yes", "--skip-preview"] ++
            Stack.upOptsArgs (some { uo with program := none }) ++
            ["--exec-kind", "auto.local"])) ∧
      Stack.upPrepare none none =
        (execKindLocal,
          Except.ok (["up", "--yes", "--skip-preview"] ++
            ["--exec-kind", "auto.local"])) ∧
      Stack.previewPrepare none (some { po with program := none }) =
        (execKindLocal,
          Except.ok (["preview"] ++
            Stack.previewOptsArgs (some { po with program := none }) ++
            ["--exec-kind", "auto.local"])) ∧
      Stack.previewPrepare none none =
        (execKindLocal, Except.ok (["preview"] ++ ["--exec-kind", "auto.local"])) ∧
      Stack.refreshArgs ro =
        ["refresh", "--yes", "--skip-preview"] ++ Stack.refreshOptsArgs ro ∧
      Stack.destroyArgs dopts =
        ["destroy", "--yes", "--skip-preview"] ++ Stack.destroyOptsArgs dopts := by
  intro uo po ro dopts
  refine ⟨?_, rfl, ?_, rfl, rfl, rfl⟩
  · show (execKindLocal,
        Except.ok ((["up", "--yes", "--skip-preview"] ++
          Stack.upOptsArgs (some { uo with program := none })) ++
          ["--exec-kind", execKindLocal])) = _
    rw [List.append_assoc]
    rfl
  · show (execKindLocal,
        Except.ok ((["preview"] ++
          Stack.previewOptsArgs (some { po with program := none })) ++
          ["--exec-kind", execKindLocal])) = _
    rw [List.append_assoc]
    rfl

/-- Claim C7: the language runtime's `Run` returns an empty string result
and no error when the program returns nil; the program's failure message as
the string result (with no error) when the program fails; and, when the dial
to the monitor address fails, an error wrapped with the context
`could not connect to resource monitor`, carried in the error position
rather than the result position. -/
theorem c7_language_runtime_run :
    ∀ (e msg : String) (po : Option String),
      languageRuntimeRun (Except.ok ()) none = ("", none) ∧
      languageRuntimeRun (Except.ok ()) (some msg) = (msg, none) ∧
      languageRuntimeRun (Except.error e) po =
        ("", some { context := "could not connect to resource monitor",
                    cause := e }) := by
  intro e msg po
  exact ⟨rfl, rfl, rfl⟩

/-- Claim C8: the operation's program defaults to the Workspace's registered
program, so when the Workspace has one, `up` and `preview` fail with the
inline-program error even when the caller passes no program option (or no
options object at all). -/
theorem c8_workspace_program_triggers_nyi :
    ∀ (p : PulumiFn) (uo : UpOptions) (po : PreviewOptions)
      (cmd : CommandResult) (hist : Option (List UpdateSummary))
      (m pt : List (String × JSONValue)),
      Stack.upPrepare (some p) none =
        (execKindInline, Except.error "NYI: inline programs") ∧
      Stack.upPrepare (some p) (some { uo with program := none }) =
        (execKindInline, Except.error "NYI: inline programs") ∧
      Stack.up (some p) none cmd hist m pt =
        Except.error "NYI: inline programs" ∧
      Stack.previewPrepare (some p) none =
        (execKindInline, Except.error "NYI: inline programs") ∧
      Stack.previewPrepare (some p) (some { po with program := none }) =
        (execKindInline, Except.error "NYI: inline programs") ∧
      Stack.preview (some p) none cmd hist =
        Except.error "NYI: inline programs" := by
  intro p uo po cmd hist m pt
  exact ⟨rfl, rfl, rfl, rfl, rfl, rfl⟩

/-- Claim C9: when the engine's history is empty at result-assembly time,
every lifecycle operation still resolves successfully, with the result's
`summary` field holding the absence value, the unchecked run-time meaning of
the source's non-null assertion. -/
theorem c9_empty_history_summary_absent :
    ∀ (cmd : CommandResult) (m pt : List (String × JSONValue))
      (ro : Option RefreshOptions) (dopts : Option DestroyOptions),
      Stack.up none none cmd (some []) m pt =
        Except.ok { stdout := cmd.stdout, stderr := cmd.stderr,
                    outputs := Stack.outputs m pt, summary := none } ∧
      Stack.preview none none cmd (some []) =
        Except.ok { stdout := cmd.stdout, stderr := cmd.stderr,
                    summary := none } ∧
      Stack.refresh ro cmd (some []) =
        { stdout := cmd.stdout, stderr := cmd.stderr, summary := none } ∧
      Stack.destroy dopts cmd (some []) =
        { stdout := cmd.stdout, stderr := cmd.stderr, summary := none } := by
  intro cmd m pt ro dopts
  exact ⟨rfl, rfl, rfl, rfl⟩

/-- Claim C10: for every operation, an option field present with a falsy
value (`parallel = 0`, an empty `message`, `expectNoChanges = false`,
`targetDependents = false`) contributes no flags, indistinguishably from the
field being absent. -/
theorem c10_falsy_options_are_absent :
    ∀ (uo : UpOptions) (po : PreviewOptions) (ro : RefreshOptions)
      (dopts : DestroyOptions),
      Stack.upOptsArgs (some { uo with parallel := some 0 }) =
        Stack.upOptsArgs (some { uo with parallel := none }) ∧
      Stack.upOptsArgs (some { uo with message := some "" }) =
        Stack.upOptsArgs (some { uo with message := none }) ∧
      Stack.upOptsArgs (some { uo with expectNoChanges := some false }) =
        Stack.upOptsArgs (some { uo with expectNoChanges := none }) ∧
      Stack.upOptsArgs (some { uo with targetDependents := some false }) =
        Stack.upOptsArgs (some { uo with targetDependents := none }) ∧
      Stack.previewOptsArgs (some { po with parallel := some 0 }) =
        Stack.previewOptsArgs (some { po with parallel := none }) ∧
      Stack.previewOptsArgs (some { po with message := some "" }) =
        Stack.previewOptsArgs (some { po with message := none }) ∧
      Stack.previewOptsArgs (some { po with expectNoChanges := some false }) =
        Stack.previewOptsArgs (some { po with expectNoChanges := none }) ∧
      Stack.previewOptsArgs (some { po with targetDependents := some false }) =
        Stack.previewOptsArgs (some { po with targetDependents := none }) ∧
      Stack.refreshOptsArgs (some { ro with parallel := some 0 }) =
        Stack.refreshOptsArgs (some { ro with parallel := none }) ∧
      Stack.refreshOptsArgs (some { ro with message := some "" }) =
        Stack.refreshOptsArgs (some { ro with message := none }) ∧
      Stack.refreshOptsArgs (some { ro with expectNoChanges := some false }) =
        Stack.refreshOptsArgs (some { ro with expectNoChanges := none }) ∧
      Stack.destroyOptsArgs (some { dopts with parallel := some 0 }) =
        Stack.destroyOptsArgs (some { dopts with parallel := none }) ∧
      Stack.destroyOptsArgs (some { dopts with message := some "" }) =
        Stack.destroyOptsArgs (some { dopts with message := none }) ∧
      Stack.destroyOptsArgs (some { dopts with targetDependents := some false }) =
        Stack.destroyOptsArgs (some { dopts with targetDependents := none }) := by
  intro uo po ro dopts
  exact ⟨rfl, rfl, rfl, rfl, rfl, rfl, rfl, rfl, rfl, rfl, rfl, rfl, rfl, rfl⟩
